import Mathlib

/-!
Shallow embedding of the natural-language-to-SQL core of the
`postgres-nl-agent` repository (module `src/agent/nlu_processor.py`).

Strings are modelled as Lean `String` / `List Char`.  The Python `re`
patterns used by the module are all of one of three shapes, which are
embedded directly:

* a plain literal pattern (`re.search(lit, s)`), i.e. a substring test;
* `kw\s+(\w+)` — a literal keyword, at least one whitespace character,
  and a captured maximal word-character run;
* `kw1\s+kw2` — two literals separated by at least one whitespace run.

Character classes follow Python's ASCII behaviour (`\w` = alphanumeric or
underscore, `\s` = whitespace); all inputs appearing in the verified
scenarios are ASCII, so this is faithful on them.  Floats 0.8 and 0.5 are
modelled as the rationals 4/5 and 1/2.
-/

namespace NLAgent

/-- Python `\s` (ASCII whitespace). -/
def isSpaceChar (c : Char) : Bool :=
  c == ' ' || c == '\t' || c == '\n' || c == '\r' || c == '\x0b' || c == '\x0c'

/-- Python `\w` (ASCII word character). -/
def isWordChar (c : Char) : Bool :=
  c.isAlpha || c.isDigit || c == '_'

/-- `re.search(lit, s) is not None` for a literal pattern `lit`:
substring occurrence. -/
def isSubstr (pat : List Char) : List Char → Bool
  | [] => pat.isEmpty
  | c :: rest => pat.isPrefixOf (c :: rest) || isSubstr pat rest

/-- Match of the pattern `kw\s+(\w+)` anchored at the start of `s`:
the literal `kw`, at least one whitespace character, then a captured
maximal nonempty word-character run. -/
def capAt (kw s : List Char) : Option (List Char) :=
  if kw.isPrefixOf s then
    let rest := s.drop kw.length
    let body := rest.dropWhile isSpaceChar
    if body.length < rest.length then
      match body with
      | c :: _ => if isWordChar c then some (body.takeWhile isWordChar) else none
      | [] => none
    else none
  else none

/-- `re.search(kw + "\s+(\w+)", s)`: leftmost match wins, returning the
captured group. -/
def searchCap (kw : List Char) : List Char → Option (List Char)
  | [] => none
  | c :: rest =>
    match capAt kw (c :: rest) with
    | some g => some g
    | none => searchCap kw rest

/-- Match of the pattern `kw1\s+kw2` anchored at the start of `s`. -/
def pairAt (k1 k2 s : List Char) : Bool :=
  if k1.isPrefixOf s then
    let rest := s.drop k1.length
    let body := rest.dropWhile isSpaceChar
    decide (body.length < rest.length) && k2.isPrefixOf body
  else false

/-- `re.search(k1 + "\s+" + k2, s) is not None`. -/
def searchPair (k1 k2 : List Char) : List Char → Bool
  | [] => false
  | c :: rest => pairAt k1 k2 (c :: rest) || searchPair k1 k2 rest

/-- Base-10 value of a digit run, as produced by Python `int`. -/
def digitsVal (l : List Char) : Nat :=
  l.foldl (fun acc c => acc * 10 + (c.toNat - '0'.toNat)) 0

/-- `re.search(r"(\d+)", s)`: first maximal digit run, parsed base 10. -/
def firstNumber : List Char → Option Nat
  | [] => none
  | c :: rest =>
    if c.isDigit then some (digitsVal ((c :: rest).takeWhile Char.isDigit))
    else firstNumber rest

/-- Python `text.lower()` (ASCII). -/
def lowerStr (s : String) : List Char :=
  s.data.map Char.toLower

/-- A value stored in the `entities` dictionary: the module stores strings
(table name, time period) and integers (extracted number). -/
inductive EntityVal where
  | str : String → EntityVal
  | num : Nat → EntityVal
deriving DecidableEq

/-- The `entities` dictionary, in insertion order. -/
abbrev EntityMap := List (String × EntityVal)

/-- The `table_patterns` keyword list of `_extract_entities`, in priority
order: `from\s+(\w+)`, `table\s+(\w+)`, `in\s+(\w+)`. -/
def table_patterns : List (List Char) :=
  ["from".data, "table".data, "in".data]

/-- First table pattern with a match wins (the `break` in the loop over
`table_patterns`). -/
def firstCap (kws : List (List Char)) (tl : List Char) : Option (List Char) :=
  match kws with
  | [] => none
  | k :: rest =>
    match searchCap k tl with
    | some g => some g
    | none => firstCap rest tl

/-- The `time_patterns` tests of `_extract_entities`, in dictionary order;
first matching key wins (the `break`). -/
def findTimePeriod (tl : List Char) : Option String :=
  if searchPair "last".data "week".data tl then some "last_week"
  else if searchPair "last".data "month".data tl then some "last_month"
  else if isSubstr "yesterday".data tl then some "yesterday"
  else if isSubstr "today".data tl then some "today"
  else if searchPair "this".data "week".data tl then some "this_week"
  else if searchPair "this".data "month".data tl then some "this_month"
  else none

/-- `NLUProcessor._extract_entities`. -/
def extract_entities (text : String) : EntityMap :=
  let tl := lowerStr text
  let e1 : EntityMap :=
    match firstCap table_patterns tl with
    | some g => [("table", EntityVal.str (String.mk g))]
    | none => []
  let e2 : EntityMap :=
    match findTimePeriod tl with
    | some tp => e1 ++ [("time_period", EntityVal.str tp)]
    | none => e1
  match firstNumber text.data with
  | some n => e2 ++ [("number", EntityVal.num n)]
  | none => e2

/-- `NLUProcessor.intent_patterns`, in dictionary (priority) order. -/
def intent_patterns : List (String × List String) :=
  [("select_data",
     ["show me", "display", "get", "find", "list", "what", "how many",
      "select", "retrieve", "fetch", "see", "view"]),
   ("count_data", ["count", "how many", "total number", "number of"]),
   ("insert_data", ["add", "insert", "create", "new", "add new"]),
   ("update_data", ["update", "modify", "change", "edit", "set"]),
   ("delete_data", ["delete", "remove", "drop", "clear"])]

/-- The intent loop of `_process_with_patterns`: first intent any of whose
patterns matches the lowercased text wins with confidence 0.8; otherwise
`unknown` with confidence 0.5. -/
def findIntent (tl : List Char) : List (String × List String) → String × ℚ
  | [] => ("unknown", 1/2)
  | (name, pats) :: rest =>
    if pats.any (fun p => isSubstr p.data tl) then (name, 4/5)
    else findIntent tl rest

/-- The dictionary returned by `process_text` / `_process_with_patterns`. -/
structure NLUResult where
  intent : String
  confidence : ℚ
  entities : EntityMap
  originalText : String
deriving DecidableEq

/-- `NLUProcessor._process_with_patterns`. -/
def process_with_patterns (text : String) : NLUResult :=
  let ic := findIntent (lowerStr text) intent_patterns
  { intent := ic.1, confidence := ic.2,
    entities := extract_entities text, originalText := text }

/-- The fields of a successful Dialogflow `detect_intent` response that
`_process_with_dialogflow` copies out verbatim. -/
structure DialogflowResult where
  displayName : String
  confidence : ℚ
  entities : EntityMap

/-- `NLUProcessor.process_text`: the Dialogflow result is returned verbatim
when the remote call is configured and succeeds (`df = some r`); otherwise
the pattern fallback runs. -/
def process_text (df : Option DialogflowResult) (text : String) : NLUResult :=
  match df with
  | some r =>
    { intent := r.displayName, confidence := r.confidence,
      entities := r.entities, originalText := text }
  | none => process_with_patterns text

/-- `sql_templates["select"]`:
`"SELECT {columns} FROM {table} {where} {order_by} {limit}"`. -/
def sql_template_select (columns table wh ob lim : String) : String :=
  "SELECT " ++ (columns ++ (" FROM " ++ (table ++ (" " ++ (wh ++ (" " ++ (ob ++ (" " ++ lim))))))))

/-- `sql_templates["count"]`: `"SELECT COUNT(*) FROM {table} {where}"`. -/
def sql_template_count (table wh : String) : String :=
  "SELECT COUNT(*) FROM " ++ (table ++ (" " ++ wh))

/-- `sql_templates["insert"]` (declared but never used by the template
strategy). -/
def sql_template_insert (table columns values : String) : String :=
  "INSERT INTO " ++ (table ++ (" (" ++ (columns ++ (") VALUES (" ++ (values ++ ")")))))

/-- `sql_templates["update"]` (declared but never used by the template
strategy). -/
def sql_template_update (table setClause wh : String) : String :=
  "UPDATE " ++ (table ++ (" SET " ++ (setClause ++ (" " ++ wh))))

/-- `sql_templates["delete"]` (declared but never used by the template
strategy). -/
def sql_template_delete (table wh : String) : String :=
  "DELETE FROM " ++ (table ++ (" " ++ wh))

/-- `entities.get("table", "unknown_table")`, rendered into the query
string. -/
def tableOf (entities : EntityMap) : String :=
  match List.lookup "table" entities with
  | some (EntityVal.str s) => s
  | some (EntityVal.num n) => toString n
  | none => "unknown_table"

/-- The `where_clause` computed for `select_data` in
`_generate_sql_with_templates`. -/
def selectTimeFilter (entities : EntityMap) : String :=
  match List.lookup "time_period" entities with
  | some tp =>
    if tp = EntityVal.str "last_week" then
      "WHERE created_at >= NOW() - INTERVAL '7 days'"
    else if tp = EntityVal.str "last_month" then
      "WHERE created_at >= NOW() - INTERVAL '1 month'"
    else if tp = EntityVal.str "today" then
      "WHERE DATE(created_at) = CURRENT_DATE"
    else ""
  | none => ""

/-- The `where_clause` computed for `count_data` in
`_generate_sql_with_templates`. -/
def countTimeFilter (entities : EntityMap) : String :=
  match List.lookup "time_period" entities with
  | some tp =>
    if tp = EntityVal.str "last_week" then
      "WHERE created_at >= NOW() - INTERVAL '7 days'"
    else ""
  | none => ""

/-- `NLUProcessor._generate_sql_with_templates`. -/
def generate_sql_with_templates (intent : String) (entities : EntityMap) : String :=
  if intent = "select_data" then
    sql_template_select "*" (tableOf entities) (selectTimeFilter entities) "" ""
  else if intent = "count_data" then
    sql_template_count (tableOf entities) (countTimeFilter entities)
  else
    "SELECT * FROM " ++ (tableOf entities ++ " LIMIT 10")

/-- The `nlu_result` dictionary as consumed by `generate_sql`: either key
may be absent. -/
structure NLUDict where
  intent : Option String
  entities : Option EntityMap

/-- `NLUProcessor.generate_sql` with no generative backend configured
(`gemini_model is None`): `nlu_result.get` defaults, then the template
strategy. -/
def generate_sql (r : NLUDict) : String :=
  generate_sql_with_templates (r.intent.getD "unknown") (r.entities.getD [])

/-- The `"SELECT 1"` safe fallback returned by `generate_sql` when SQL
generation raises internally. -/
def safeFallback : String :=
  "SELECT 1"

/-- A result row: mapping from field name to integer value. -/
abbrev Row := List (String × Int)

/-- The `query_result` argument of `generate_response`: either a list of
rows or a non-list value. -/
inductive QueryResult where
  | rows : List Row → QueryResult
  | other : QueryResult

/-- Python `row.get(key, d)`. -/
def rowGet (r : Row) (k : String) (d : Int) : Int :=
  (List.lookup k r).getD d

/-- `NLUProcessor.generate_response`. -/
def generate_response (intent : String) (qr : QueryResult) : String :=
  if intent = "count_data" then
    match qr with
    | QueryResult.rows (first :: _) =>
      "I found " ++ toString (rowGet first "count" 0) ++ " records."
    | QueryResult.rows [] => "I couldn't count the records."
    | QueryResult.other => "I couldn't count the records."
  else if intent = "select_data" then
    match qr with
    | QueryResult.rows l =>
      if l.length = 0 then "No records found."
      else if l.length = 1 then "I found 1 record."
      else "I found " ++ toString l.length ++ " records."
    | QueryResult.other => "I couldn't retrieve the data."
  else "Query executed successfully."

/-- First whitespace-delimited token of a string, uppercased (observer used
to state the spec's leading-keyword properties). -/
def firstTokenUpper (s : String) : String :=
  String.mk (((s.data.dropWhile isSpaceChar).takeWhile
    (fun c => !isSpaceChar c)).map Char.toUpper)

/-- Maximal word-character runs of a text (observer used to state
word-boundedness properties); accumulator-based splitter. -/
def wordsAux : List Char → List Char → List (List Char)
  | [], cur => if cur.isEmpty then [] else [cur.reverse]
  | c :: rest, cur =>
    if isWordChar c then wordsAux rest (c :: cur)
    else if cur.isEmpty then wordsAux rest []
    else cur.reverse :: wordsAux rest []

/-- The standalone words of a text. -/
def wordsOf (s : List Char) : List (List Char) :=
  wordsAux s []

/-- Whether `w` occurs as a standalone word of `s`. -/
def hasWord (w : String) (s : List Char) : Bool :=
  (wordsOf s).contains w.data

/-- The closed intent label set of the spec's data model. -/
def intentLabels : List String :=
  ["select_data", "count_data", "insert_data", "update_data", "delete_data", "unknown"]

/-- The local classifier as the spec words it: for each intent in the
fixed priority order `select_data, count_data, insert_data, update_data,
delete_data`, test whether any of that intent's trigger phrases appears
as a substring of the lowercased text; the first intent with any match
wins with confidence 0.8; if none matches, `unknown` with confidence
0.5.  (Spec-side definition, to be compared with the code-side
`findIntent` over `intent_patterns`.) -/
def classifyIntentSpec (tl : List Char) : String × ℚ :=
  if (["show me", "display", "get", "find", "list", "what", "how many",
       "select", "retrieve", "fetch", "see", "view"] : List String).any
      (fun p => isSubstr p.data tl) then ("select_data", 4/5)
  else if (["count", "how many", "total number", "number of"] : List String).any
      (fun p => isSubstr p.data tl) then ("count_data", 4/5)
  else if (["add", "insert", "create", "new", "add new"] : List String).any
      (fun p => isSubstr p.data tl) then ("insert_data", 4/5)
  else if (["update", "modify", "change", "edit", "set"] : List String).any
      (fun p => isSubstr p.data tl) then ("update_data", 4/5)
  else if (["delete", "remove", "drop", "clear"] : List String).any
      (fun p => isSubstr p.data tl) then ("delete_data", 4/5)
  else ("unknown", 1/2)

/-- A string whose character data begins with the seven characters of
`"SELECT "` has first whitespace-delimited token `SELECT`. -/
theorem firstTokenUpper_eq_select (s : String) (l : List Char)
    (h : s.data = "SELECT ".data ++ l) : firstTokenUpper s = "SELECT" := by
  unfold firstTokenUpper
  rw [h]
  rfl

/-- Every output of the template strategy begins with `"SELECT "`. -/
theorem exists_select_tail (intent : String) (entities : EntityMap) :
    ∃ l, (generate_sql_with_templates intent entities).data = "SELECT ".data ++ l := by
  unfold generate_sql_with_templates
  by_cases h1 : intent = "select_data"
  · rw [if_pos h1]
    exact ⟨_, rfl⟩
  · rw [if_neg h1]
    by_cases h2 : intent = "count_data"
    · rw [if_pos h2]
      exact ⟨_, rfl⟩
    · rw [if_neg h2]
      exact ⟨_, rfl⟩

/-- Claim C1: with no generative backend configured, SQL synthesis returns,
for every intent and entity map (any `nlu_result` dictionary), a non-empty
string whose first whitespace-delimited token, uppercased, is one of
SELECT/INSERT/UPDATE/DELETE; and the safe fallback returned on internal
failure is the constant query `SELECT 1`, whose first token is also in
that set. -/
theorem generate_sql_first_token_safe (r : NLUDict) :
    generate_sql r ≠ "" ∧
    firstTokenUpper (generate_sql r) ∈ ["SELECT", "INSERT", "UPDATE", "DELETE"] ∧
    safeFallback = "SELECT 1" ∧
    firstTokenUpper safeFallback ∈ ["SELECT", "INSERT", "UPDATE", "DELETE"] := by
  obtain ⟨l, hl⟩ := exists_select_tail (r.intent.getD "unknown") (r.entities.getD [])
  have hdata : (generate_sql r).data = "SELECT ".data ++ l := hl
  refine ⟨?_, ?_, rfl, ?_⟩
  · intro e
    rw [e] at hdata
    have h1 : ([] : List Char) = 'S' :: ('E' :: ('L' :: ('E' :: ('C' :: ('T' :: (' ' :: l)))))) :=
      hdata
    exact List.noConfusion h1
  · have hft : firstTokenUpper (generate_sql r) = "SELECT" :=
      firstTokenUpper_eq_select _ l hdata
    rw [hft]
    exact List.mem_cons_self _ _
  · have hft : firstTokenUpper safeFallback = "SELECT" := rfl
    rw [hft]
    exact List.mem_cons_self _ _

/-- Claim C2 (counterexample): on `"How many customers do we have?"` the
local pipeline classifies the intent as `select_data` (the phrase
`how many` is one of `select_data`'s trigger patterns, and `select_data`
is tested first), not `count_data` as claimed, and the template query is
not `SELECT COUNT(*) FROM unknown_table`. -/
theorem how_many_customers_cex :
    (process_with_patterns "How many customers do we have?").intent = "select_data" ∧
    (process_with_patterns "How many customers do we have?").intent ≠ "count_data" ∧
    generate_sql_with_templates
        (process_with_patterns "How many customers do we have?").intent
        (process_with_patterns "How many customers do we have?").entities ≠
      "SELECT COUNT(*) FROM unknown_table" := by
  refine ⟨rfl, by decide, by decide⟩

/-- Claim C2 (amended): on `"How many customers do we have?"` the local
pipeline produces intent `select_data` with confidence 0.8 (since
`how many` is among `select_data`'s trigger patterns, which are tested
before `count_data`'s), an empty entity map, and the select template
query `SELECT * FROM unknown_table` followed by three trailing spaces
(the unfilled `where`/`order_by`/`limit` slots of the format string). -/
theorem how_many_customers_amended :
    process_with_patterns "How many customers do we have?" =
      { intent := "select_data", confidence := 4/5, entities := [],
        originalText := "How many customers do we have?" } ∧
    generate_sql_with_templates "select_data" [] = "SELECT * FROM unknown_table   " := by
  exact ⟨rfl, rfl⟩

/-- Claim C3 (counterexample): for intent `count_data` and the non-empty
result `[{}]` whose first row lacks the `count` field, the summarizer does
not report a "could not count" message: `dict.get` defaults the count to 0
and the message is `I found 0 records.`. -/
theorem count_response_missing_field_cex :
    generate_response "count_data" (QueryResult.rows [[]]) = "I found 0 records." ∧
    generate_response "count_data" (QueryResult.rows [[]]) ≠
      "I couldn't count the records." := by
  refine ⟨rfl, by decide⟩

/-- Claim C3 (amended): for intent `count_data` the summarizer reports the
`count` field of the first row of any non-empty row list, defaulting to 0
when the field is absent (so `[{count: 7}]` reports 7); the
"could not count" message is produced exactly when the row list is empty
or the result is not a list. -/
theorem count_response_amended :
    (∀ (first : Row) (rest : List Row),
      generate_response "count_data" (QueryResult.rows (first :: rest)) =
        "I found " ++ toString (rowGet first "count" 0) ++ " records.") ∧
    generate_response "count_data" (QueryResult.rows [[("count", 7)]]) =
      "I found 7 records." ∧
    generate_response "count_data" (QueryResult.rows []) = "I couldn't count the records." ∧
    generate_response "count_data" QueryResult.other = "I couldn't count the records." := by
  exact ⟨fun first rest => rfl, rfl, rfl, rfl⟩

/-- Claim C4: for every intent other than `select_data` and `count_data`
(so in particular `unknown`, `insert_data`, `update_data`, `delete_data`)
and every entity map, the template strategy returns exactly
`SELECT * FROM <table> LIMIT 10`, where `<table>` is the table entity and
defaults to `unknown_table` when absent; its first token is `SELECT`, so
the strategy never produces a mutating statement. -/
theorem template_other_intents_read_only (intent : String) (entities : EntityMap)
    (h1 : intent ≠ "select_data") (h2 : intent ≠ "count_data") :
    generate_sql_with_templates intent entities =
      "SELECT * FROM " ++ (tableOf entities ++ " LIMIT 10") ∧
    tableOf [] = "unknown_table" ∧
    (∀ t, List.lookup "table" entities = some (EntityVal.str t) → tableOf entities = t) ∧
    firstTokenUpper (generate_sql_with_templates intent entities) = "SELECT" := by
  have hq : generate_sql_with_templates intent entities =
      "SELECT * FROM " ++ (tableOf entities ++ " LIMIT 10") := by
    unfold generate_sql_with_templates
    rw [if_neg h1, if_neg h2]
  refine ⟨hq, rfl, ?_, ?_⟩
  · intro t ht
    unfold tableOf
    rw [ht]
  · rw [hq]
    exact firstTokenUpper_eq_select _ ("* FROM ".data ++ (tableOf entities ++ " LIMIT 10").data) rfl

/-- Witness for C4: at intent `insert_data` and the empty entity map the
hypotheses hold and the query is `SELECT * FROM unknown_table LIMIT 10`. -/
theorem template_other_intents_read_only_witness :
    ("insert_data" : String) ≠ "select_data" ∧ ("insert_data" : String) ≠ "count_data" ∧
    generate_sql_with_templates "insert_data" [] =
      "SELECT * FROM " ++ (tableOf [] ++ " LIMIT 10") := by
  refine ⟨by decide, by decide,
    (template_other_intents_read_only "insert_data" [] (by decide) (by decide)).1⟩

/-- Claim C5: for every input text the local classifier behaves exactly as
the spec-side priority classifier `classifyIntentSpec` (fixed order
`select_data, count_data, insert_data, update_data, delete_data`; first
intent any of whose trigger phrases occurs in the lowercased text wins
with confidence 0.8, otherwise `unknown` with confidence 0.5); in
particular any text containing both `count` and `show me` classifies as
`select_data`. -/
theorem local_intent_priority (text : String) :
    findIntent (lowerStr text) intent_patterns = classifyIntentSpec (lowerStr text) ∧
    (isSubstr "count".data (lowerStr text) = true →
     isSubstr "show me".data (lowerStr text) = true →
     (process_with_patterns text).intent = "select_data") ∧
    (process_with_patterns text).intent = (findIntent (lowerStr text) intent_patterns).1 ∧
    (process_with_patterns text).confidence = (findIntent (lowerStr text) intent_patterns).2 := by
  refine ⟨rfl, ?_, rfl, rfl⟩
  intro _ hs
  show (findIntent (lowerStr text) intent_patterns).1 = "select_data"
  simp only [intent_patterns, findIntent, List.any_cons, List.any_nil, hs]
  simp

/-- Witness for C5: the text `"count and show me things"` contains both
trigger phrases and the local classifier yields `select_data`. -/
theorem local_intent_priority_witness :
    isSubstr "count".data (lowerStr "count and show me things") = true ∧
    isSubstr "show me".data (lowerStr "count and show me things") = true ∧
    (process_with_patterns "count and show me things").intent = "select_data" := by
  refine ⟨by decide, by decide, ?_⟩
  exact (local_intent_priority "count and show me things").2.1 (by decide) (by decide)

/-- Claim C6: in the template strategy the `select_data` WHERE clause maps
`last_week` to `created_at >= NOW() - INTERVAL '7 days'`, `last_month` to
`created_at >= NOW() - INTERVAL '1 month'`, `today` to
`DATE(created_at) = CURRENT_DATE`, and every other time period value
(including `yesterday`/`this_week`/`this_month`) and an absent
`time_period` produce no filter; for `count_data` only `last_week`
produces a filter.  The clauses are the ones rendered into the select and
count template queries. -/
theorem time_filter_mapping (entities : EntityMap) :
    generate_sql_with_templates "select_data" entities =
      sql_template_select "*" (tableOf entities) (selectTimeFilter entities) "" "" ∧
    generate_sql_with_templates "count_data" entities =
      sql_template_count (tableOf entities) (countTimeFilter entities) ∧
    (List.lookup "time_period" entities = some (EntityVal.str "last_week") →
      selectTimeFilter entities = "WHERE created_at >= NOW() - INTERVAL '7 days'" ∧
      countTimeFilter entities = "WHERE created_at >= NOW() - INTERVAL '7 days'") ∧
    (List.lookup "time_period" entities = some (EntityVal.str "last_month") →
      selectTimeFilter entities = "WHERE created_at >= NOW() - INTERVAL '1 month'" ∧
      countTimeFilter entities = "") ∧
    (List.lookup "time_period" entities = some (EntityVal.str "today") →
      selectTimeFilter entities = "WHERE DATE(created_at) = CURRENT_DATE" ∧
      countTimeFilter entities = "") ∧
    (∀ tp, List.lookup "time_period" entities = some (EntityVal.str tp) →
      tp ≠ "last_week" → tp ≠ "last_month" → tp ≠ "today" →
      selectTimeFilter entities = "") ∧
    (List.lookup "time_period" entities = none →
      selectTimeFilter entities = "" ∧ countTimeFilter entities = "") ∧
    (∀ tp, List.lookup "time_period" entities = some tp →
      tp ≠ EntityVal.str "last_week" → countTimeFilter entities = "") := by
  refine ⟨rfl, rfl, ?_, ?_, ?_, ?_, ?_, ?_⟩
  · intro h
    exact ⟨by simp [selectTimeFilter, h], by simp [countTimeFilter, h]⟩
  · intro h
    exact ⟨by simp [selectTimeFilter, h], by simp [countTimeFilter, h]⟩
  · intro h
    exact ⟨by simp [selectTimeFilter, h], by simp [countTimeFilter, h]⟩
  · intro tp h h1 h2 h3
    simp [selectTimeFilter, h, h1, h2, h3]
  · intro h
    exact ⟨by simp [selectTimeFilter, h], by simp [countTimeFilter, h]⟩
  · intro tp h h1
    simp [countTimeFilter, h, h1]

/-- Witness for C6: concrete entity maps realizing each hypothesis of the
mapping. -/
theorem time_filter_mapping_witness :
    selectTimeFilter [("time_period", EntityVal.str "last_week")] =
      "WHERE created_at >= NOW() - INTERVAL '7 days'" ∧
    selectTimeFilter [("time_period", EntityVal.str "last_month")] =
      "WHERE created_at >= NOW() - INTERVAL '1 month'" ∧
    selectTimeFilter [("time_period", EntityVal.str "today")] =
      "WHERE DATE(created_at) = CURRENT_DATE" ∧
    selectTimeFilter [("time_period", EntityVal.str "yesterday")] = "" ∧
    selectTimeFilter [] = "" ∧
    countTimeFilter [("time_period", EntityVal.str "this_month")] = "" := by
  refine ⟨((time_filter_mapping _).2.2.1 (by decide)).1,
    ((time_filter_mapping _).2.2.2.1 (by decide)).1,
    ((time_filter_mapping _).2.2.2.2.1 (by decide)).1,
    (time_filter_mapping _).2.2.2.2.2.1 "yesterday" (by decide) (by decide) (by decide) (by decide),
    ((time_filter_mapping _).2.2.2.2.2.2.1 (by decide)).1,
    (time_filter_mapping _).2.2.2.2.2.2.2 (EntityVal.str "this_month") (by decide) (by decide)⟩

/-- Claim C7 (counterexample): on `"Show me all orders from last week"`
the table entity is not `orders` and the generated query is not
byte-identical to
`SELECT * FROM orders WHERE created_at >= NOW() - INTERVAL '7 days'`. -/
theorem orders_last_week_cex :
    List.lookup "table" (process_with_patterns "Show me all orders from last week").entities ≠
      some (EntityVal.str "orders") ∧
    generate_sql_with_templates
        (process_with_patterns "Show me all orders from last week").intent
        (process_with_patterns "Show me all orders from last week").entities ≠
      "SELECT * FROM orders WHERE created_at >= NOW() - INTERVAL '7 days'" := by
  exact ⟨by decide, by decide⟩

/-- Claim C7 (amended): on `"Show me all orders from last week"` the local
pipeline classifies intent `select_data` and extracts entities
`{table: "last", time_period: "last_week"}` — the pattern `from\s+(\w+)`
captures the word following `from`, which in this text is `last` — and
the template strategy produces
`SELECT * FROM last WHERE created_at >= NOW() - INTERVAL '7 days'`
followed by two trailing spaces (the unfilled `order_by`/`limit` slots of
the format string). -/
theorem orders_last_week_amended :
    (process_with_patterns "Show me all orders from last week").intent = "select_data" ∧
    (process_with_patterns "Show me all orders from last week").entities =
      [("table", EntityVal.str "last"), ("time_period", EntityVal.str "last_week")] ∧
    generate_sql_with_templates "select_data"
        [("table", EntityVal.str "last"), ("time_period", EntityVal.str "last_week")] =
      "SELECT * FROM last WHERE created_at >= NOW() - INTERVAL '7 days'  " := by
  exact ⟨rfl, by decide, by decide⟩

/-- Claim C8 (counterexample): when the Dialogflow strategy is configured
and reports an intent display name outside the fixed label set, `process`
returns that name verbatim, so the returned intent does not belong to the
closed label set. -/
theorem process_text_closed_set_cex :
    (process_text (some ⟨"book_flight", 1, []⟩) "hello").intent = "book_flight" ∧
    "book_flight" ∉ intentLabels := by
  exact ⟨rfl, by decide⟩

/-- Claim C8 (amended): with the local (pattern) strategy, `process`
always returns an intent from the fixed closed label set and a confidence
in [0,1] (in fact 0.8 or 0.5); with the Dialogflow strategy the reported
intent name and confidence are returned verbatim, so no closed-set or
range guarantee holds for them. -/
theorem process_text_intent_confidence :
    (∀ text : String,
      (process_text none text).intent ∈ intentLabels ∧
      ((process_text none text).confidence = 4/5 ∨
       (process_text none text).confidence = 1/2) ∧
      0 ≤ (process_text none text).confidence ∧ (process_text none text).confidence ≤ 1) ∧
    (∀ (r : DialogflowResult) (text : String),
      (process_text (some r) text).intent = r.displayName ∧
      (process_text (some r) text).confidence = r.confidence) := by
  constructor
  · intro text
    have key : (findIntent (lowerStr text) intent_patterns).1 ∈ intentLabels ∧
        ((findIntent (lowerStr text) intent_patterns).2 = 4/5 ∨
         (findIntent (lowerStr text) intent_patterns).2 = 1/2) := by
      simp only [intent_patterns, findIntent]
      split_ifs <;> constructor <;> simp [intentLabels]
    refine ⟨key.1, key.2, ?_, ?_⟩
    · rcases key.2 with h | h <;> · show 0 ≤ (findIntent (lowerStr text) intent_patterns).2; rw [h]; norm_num
    · rcases key.2 with h | h <;> · show (findIntent (lowerStr text) intent_patterns).2 ≤ 1; rw [h]; norm_num
  · intro r text
    exact ⟨rfl, rfl⟩

/-- Claim C9: the table-extraction patterns are not word-bounded: the text
`"again today"` contains none of `from`, `table`, `in` as a standalone
word (`in` occurs only as the suffix of `again`), yet entity extraction
returns a table entity, capturing `today`, the word following the
embedded letter sequence `in`. -/
theorem table_pattern_not_word_bounded :
    hasWord "from" (lowerStr "again today") = false ∧
    hasWord "table" (lowerStr "again today") = false ∧
    hasWord "in" (lowerStr "again today") = false ∧
    isSubstr "in".data (lowerStr "again today") = true ∧
    List.lookup "table" (extract_entities "again today") = some (EntityVal.str "today") := by
  exact ⟨rfl, rfl, rfl, rfl, by decide⟩

/-- Claim C10 (counterexample): a dictionary carrying intent
`select_data` but lacking the `entities` key does not produce
`SELECT * FROM unknown_table LIMIT 10`: the missing entities default to
the empty map, the select template runs, and the result is
`SELECT * FROM unknown_table` with three trailing spaces. -/
theorem generate_sql_missing_keys_cex :
    generate_sql { intent := some "select_data", entities := none } =
      "SELECT * FROM unknown_table   " ∧
    generate_sql { intent := some "select_data", entities := none } ≠
      "SELECT * FROM unknown_table LIMIT 10" := by
  exact ⟨rfl, by decide⟩

/-- Claim C10 (amended): with no generative backend, `generate_sql` on a
dictionary lacking the `intent` key and/or the `entities` key does not
fail: a missing intent defaults to `unknown` and missing entities to the
empty map, and the template strategy runs on the defaults.  With both
keys missing (and more generally whenever the intent defaults to
`unknown`) the result is `SELECT * FROM <table> LIMIT 10` over the
defaulted entities — `SELECT * FROM unknown_table LIMIT 10` when the
entity map is also missing; when only the `entities` key is missing the
declared intent still selects the template, e.g. `select_data` yields the
select template output, not the LIMIT 10 query. -/
theorem generate_sql_missing_keys_amended :
    generate_sql { intent := none, entities := none } =
      "SELECT * FROM unknown_table LIMIT 10" ∧
    (∀ e, generate_sql { intent := none, entities := some e } =
      "SELECT * FROM " ++ (tableOf e ++ " LIMIT 10")) ∧
    (∀ i, generate_sql { intent := some i, entities := none } =
      generate_sql_with_templates i []) ∧
    (∀ i e, generate_sql { intent := i, entities := e } =
      generate_sql_with_templates (i.getD "unknown") (e.getD [])) := by
  exact ⟨rfl, fun e => rfl, fun i => rfl, fun i e => rfl⟩

end NLAgent
